import Mathlib

/-!
Shallow embedding of `src/clash of clans/draggable-slider.js`.

The widget manipulates a DOM subtree: a container element (`this.elem`),
an inner track (`this.inner`) whose `style.left` is mutated, and a fixed
list of slides.  We model:

* pixel quantities as rationals (`ℚ`): browsers expose fractional pixel
  coordinates through `getBoundingClientRect` and `pageX`;
* the inline `left` style of the track as a `CssLeft` value: unset,
  a `<q>px` value, or a value `parseInt` cannot parse (e.g. `auto`);
* `parseInt` of a decimal pixel string as truncation toward zero
  (`parseInt("100.5px") = 100`, `parseInt("-0.5px") = 0`), and the
  `isNaN` fallback of `getInnerLeft` as returning `0` on unset or
  unparseable styles;
* the layout geometry as an environment `Geom`: the container's center
  `center` (which does not move when the track's `left` changes) and
  `slideCenter i L`, the horizontal center of slide `i` when the track's
  actual CSS `left` is `L`.  The claims about "stable layout geometry"
  (slide positions shift one-to-one with the track offset) are stated
  over `affineGeom`, where `slideCenter i L = base i + L`;
* the per-instance mutable fields (`activeSlide`, `startSlide`,
  `startX`, the container's `active` class, the track's `left` style and
  the slides' `active` classes) as a record `SliderState`.

JavaScript `null` fields are modelled with `Option`; JS `==`/`!=`
between `null` and numbers agrees with `Option` equality at the
comparisons the source performs (`null == null` is true, `null == 0` is
false).  `pos - null` coerces `null` to `0`, modelled by `Option.getD 0`.
-/

namespace DraggableSlider

/-- Truncation toward zero of a rational, i.e. `parseInt` applied to the
decimal string a JS number renders as (`parseInt("3.7px") = 3`,
`parseInt("-3.7px") = -3`). -/
def truncQ (q : ℚ) : ℤ :=
  q.num.sign * (q.num.natAbs / q.den : ℕ)

/-- The inline `left` style of the track: never set, set to a pixel
value, or set to something `parseInt` cannot parse. -/
inductive CssLeft where
  | unset : CssLeft
  | px (q : ℚ) : CssLeft
  | other : CssLeft
deriving DecidableEq

/-- Layout geometry environment: `n` slides, the container's horizontal
center (`sliderRect.left + sliderRect.width / 2`, unaffected by the
track's `left`), and each slide's horizontal center
(`slideRect.left + slideRect.width / 2`) as a function of the track's
actual CSS `left`. -/
structure Geom where
  n : ℕ
  center : ℚ
  slideCenter : ℕ → ℚ → ℚ

/-- Stable layout geometry: slide centers shift one-to-one with the
track's `left` (affine with unit slope), `base i` being slide `i`'s
center when `left` is `0`. -/
def affineGeom (n : ℕ) (base : ℕ → ℚ) (c : ℚ) : Geom :=
  { n := n, center := c, slideCenter := fun i L => base i + L }

/-- The mutable per-instance state: `activeSlide`, `startSlide`,
`startX` (all initialized to `null`), the container's `active` class
(`engaged`), the track's inline `left`, and each slide's `active`
class. -/
structure SliderState where
  activeSlide : Option ℤ
  startSlide : Option ℤ
  startX : Option ℚ
  engaged : Bool
  leftStyle : CssLeft
  slideActive : ℕ → Bool

/-- The actual CSS `left` the layout engine uses: the pixel value when
set, otherwise `0` (the track is positioned relatively, so `left:auto`
coincides with `left:0`). -/
def actualLeft (s : SliderState) : ℚ :=
  match s.leftStyle with
  | .unset => 0
  | .px q => q
  | .other => 0

/-- Source `getInnerLeft`: `parseInt(this.inner.style.left)`, returning
`0` when the result is `NaN` (style unset or unparseable). -/
def getInnerLeft (s : SliderState) : ℤ :=
  match s.leftStyle with
  | .px q => truncQ q
  | _ => 0

/-- Source `getSlideOffset`: the signed distance between slide `i`'s
center and the container's center, read from live bounding boxes. -/
def getSlideOffset (g : Geom) (s : SliderState) (i : ℕ) : ℚ :=
  g.slideCenter i (actualLeft s) - g.center

/-- One iteration of the loop body of `getActiveSlide`:
`if (Math.abs(off(i)) < Math.abs(off(i-1))) res = i`, guarded by the
loop starting at `i = 1`. -/
def stepGAS (off : ℕ → ℚ) (res i : ℕ) : ℕ :=
  if 1 ≤ i ∧ |off i| < |off (i - 1)| then i else res

/-- The loop of `getActiveSlide`: `res = 0; for (i = 1; i < n; i++) ...`. -/
def gasAux (off : ℕ → ℚ) (n : ℕ) : ℕ :=
  (List.range n).foldl (stepGAS off) 0

/-- Source `getActiveSlide`. -/
def getActiveSlide (g : Geom) (s : SliderState) : ℕ :=
  gasAux (fun i => getSlideOffset g s i) g.n

/-- The two sequential edge-case `if`s shared by `moveToSlide` and
`setActiveSlide`: `if (slide < 0) slide = 0;
if (slide > this.slides.length - 1) slide = this.slides.length - 1`. -/
def clampIdx (n : ℕ) (k : ℤ) : ℤ :=
  let k1 := if k < 0 then 0 else k
  if k1 > (n : ℤ) - 1 then (n : ℤ) - 1 else k1

/-- Source `setActiveSlide`: clamp, store the active index, then loop
over all slides adding the `active` class on the match and removing it
elsewhere. -/
def setActiveSlide (g : Geom) (k : ℤ) (s : SliderState) : SliderState :=
  let k1 := clampIdx g.n k
  { s with
    activeSlide := some k1
    slideActive := fun i => if i < g.n then decide ((i : ℤ) = k1) else s.slideActive i }

/-- Source `moveToSlide`: clamp, delegate to `setActiveSlide`, then set
`style.left` to `getInnerLeft() - getSlideOffset(this.activeSlide)`
pixels (reading `this.activeSlide` just after `setActiveSlide` stored
the clamped index). -/
def moveToSlide (g : Geom) (k : ℤ) (s : SliderState) : SliderState :=
  let k1 := clampIdx g.n k
  let s1 := setActiveSlide g k1 s
  { s1 with
    leftStyle :=
      .px ((getInnerLeft s1 : ℚ) - getSlideOffset g s1 (s1.activeSlide.getD 0).toNat) }

/-- Source `moveToActiveSlide`: `if (this.activeSlide == null)
this.activeSlide = 0; this.moveToSlide(this.activeSlide)`. -/
def moveToActiveSlide (g : Geom) (s : SliderState) : SliderState :=
  let a := s.activeSlide.getD 0
  moveToSlide g a { s with activeSlide := some a }

/-- Source `onStart`: add the container's `active` class, record the
pointer X and the active index at gesture start. -/
def onStart (x : ℚ) (s : SliderState) : SliderState :=
  { s with engaged := true, startX := some x, startSlide := s.activeSlide }

/-- Source `onEnd`: remove the container's `active` class, then snap via
`moveToActiveSlide` when the active index changed during the gesture or
is the first or the last slide. -/
def onEnd (g : Geom) (s : SliderState) : SliderState :=
  let s1 := { s with engaged := false }
  if s1.startSlide ≠ s1.activeSlide ∨ s1.activeSlide = some 0 ∨
      s1.activeSlide = some ((g.n : ℤ) - 1) then
    moveToActiveSlide g s1
  else s1

/-- Source `onMove`: no-op unless the container carries the `active`
class; otherwise compute the incremental pointer delta, update the
recorded pointer X, shift `style.left` by the delta (from its parsed
value), and refresh the active index from the new layout. -/
def onMove (g : Geom) (x : ℚ) (s : SliderState) : SliderState :=
  if s.engaged = false then s
  else
    let pos := x
    let dist := pos - s.startX.getD 0
    let s1 := { s with
      startX := some pos
      leftStyle := .px ((getInnerLeft s : ℚ) + dist) }
    setActiveSlide g ((getActiveSlide g s1 : ℕ) : ℤ) s1

/-- Source static `InvalidSliderStructure`: the `console.warn` message,
which names the offending container id. -/
def InvalidSliderStructure (sliderID : String) : String :=
  "The DraggableSlider with ID " ++ sliderID ++
    " will not work as it has some missing elements."

/-- Outcome of `new DraggableSlider(...)`: either an inert instance (a
warning was logged, no event listeners were installed) or a functional
instance with its initial state. -/
inductive ConstructOutcome where
  | invalid (warning : String) : ConstructOutcome
  | ok (s : SliderState) : ConstructOutcome

/-- The DOM-supplied initial values of the mutable markup state: whether
the container starts with the `active` class, the track's initial inline
`left`, and the slides' initial `active` classes. -/
structure InitDom where
  engaged : Bool
  leftStyle : CssLeft
  slideActive : ℕ → Bool

/-- Source constructor: three early returns through
`InvalidSliderStructure` when the container, the track, or any slide is
missing (`g.n` is the number of elements matching the slide class);
otherwise initialize the nullable fields, install the listeners, and run
`setActiveSlide(getActiveSlide())`. -/
def construct (sliderID : String) (hasElem hasInner : Bool) (g : Geom)
    (init : InitDom) : ConstructOutcome :=
  if hasElem = false then .invalid (InvalidSliderStructure sliderID)
  else if hasInner = false then .invalid (InvalidSliderStructure sliderID)
  else if g.n = 0 then .invalid (InvalidSliderStructure sliderID)
  else
    let s0 : SliderState :=
      { activeSlide := none, startSlide := none, startX := none,
        engaged := init.engaged, leftStyle := init.leftStyle,
        slideActive := init.slideActive }
    .ok (setActiveSlide g ((getActiveSlide g s0 : ℕ) : ℤ) s0)

/-- Whether construction installed the event listeners. -/
def bindings : ConstructOutcome → Bool
  | .invalid _ => false
  | .ok _ => true

/-- The externally triggerable operations: the gesture handlers bound to
DOM events, the resize handler, and the public navigation methods. -/
inductive Op where
  | start (x : ℚ) : Op
  | move (x : ℚ) : Op
  | gestureEnd : Op
  | resize : Op
  | moveTo (k : ℤ) : Op
  | setActive (k : ℤ) : Op

/-- Apply one operation to the state. -/
def applyOp (g : Geom) (s : SliderState) : Op → SliderState
  | .start x => onStart x s
  | .move x => onMove g x s
  | .gestureEnd => onEnd g s
  | .resize => moveToActiveSlide g s
  | .moveTo k => moveToSlide g k s
  | .setActive k => setActiveSlide g k s

/-- Run a sequence of operations. -/
def run (g : Geom) (s : SliderState) (l : List Op) : SliderState :=
  l.foldl (applyOp g) s

/-- Deliver a DOM event / API call to a construction outcome: an inert
instance has no listeners bound, so events leave it untouched. -/
def dispatch (g : Geom) (o : Op) : ConstructOutcome → ConstructOutcome
  | .invalid w => .invalid w
  | .ok s => .ok (applyOp g s o)

/-- The track's inline `left` parses back exactly: it is unset, or a
whole number of pixels. -/
def ParseExact (s : SliderState) : Prop :=
  (getInnerLeft s : ℚ) = actualLeft s

/-- The active-index invariant: `activeSlide` holds an integer in
`[0, n-1]`. -/
def ActiveOk (n : ℕ) (s : SliderState) : Prop :=
  ∃ j : ℤ, s.activeSlide = some j ∧ 0 ≤ j ∧ j ≤ (n : ℤ) - 1

/-! Concrete sliders used by the counterexamples and witnesses below. -/

/-- State with an unset track `left`, for the C9 witness. -/
def sU9 : SliderState :=
  { activeSlide := none, startSlide := none, startX := none,
    engaged := false, leftStyle := .unset, slideActive := fun _ => false }

/-- State whose track `left` holds a value `parseInt` cannot parse,
for the C9 witness. -/
def sO9 : SliderState :=
  { activeSlide := none, startSlide := none, startX := none,
    engaged := false, leftStyle := .other, slideActive := fun _ => false }

/-- State whose track `left` is the fractional `1.5px`, for the C9
witness. -/
def sP9 : SliderState :=
  { activeSlide := none, startSlide := none, startX := none,
    engaged := false, leftStyle := .px (3 / 2), slideActive := fun _ => false }


/-- Two-slide geometry used by the C8 witness: slides 100px wide laid
left to right, container 200px wide. -/
def gC8 : Geom := affineGeom 2 (fun i => (i : ℚ) * 100 + 50) 100

/-- Engaged mid-gesture state used by the C8 witness. -/
def sC8 : SliderState :=
  { activeSlide := some 0, startSlide := some 0, startX := some 100,
    engaged := true, leftStyle := .unset, slideActive := fun i => decide (i = 0) }

/-- Geometry for the C10 witness: two 100px slides in a 200px container. -/
def gC10 : Geom := affineGeom 2 (fun i => (i : ℚ) * 100 + 50) 100

/-- Initial DOM markup for the C10 witness. -/
def initC10 : InitDom :=
  { engaged := false, leftStyle := .unset, slideActive := fun _ => false }

/-- The state the constructor produces in the C10 witness. -/
def s0C10 : SliderState :=
  setActiveSlide gC10
    ((getActiveSlide gC10
      { activeSlide := none, startSlide := none, startX := none,
        engaged := initC10.engaged, leftStyle := initC10.leftStyle,
        slideActive := initC10.slideActive } : ℕ) : ℤ)
    { activeSlide := none, startSlide := none, startX := none,
      engaged := initC10.engaged, leftStyle := initC10.leftStyle,
      slideActive := initC10.slideActive }

/-- Geometry for the C7 counterexample: one slide whose center
coincides with the container's center at `left: 0`. -/
def gC7 : Geom := affineGeom 1 (fun _ => 0) 0

/-- State for the C7 counterexample: the track's `left` is the
fractional pixel value `0.5px` (as a drag with fractional pointer
coordinates produces). -/
def sC7 : SliderState :=
  { activeSlide := some 0, startSlide := none, startX := none,
    engaged := false, leftStyle := .px (1 / 2), slideActive := fun _ => true }

/-- Slider used by the C7 and C6 witnesses: two 100px slides in a 200px
container, whole-pixel geometry. -/
def gW67 : Geom := affineGeom 2 (fun i => (i : ℚ) * 100 + 50) 100

/-- State used by the C7 and C6 witnesses: track at `left: 7px`. -/
def sW67 : SliderState :=
  { activeSlide := some 0, startSlide := none, startX := none,
    engaged := false, leftStyle := .px 7, slideActive := fun _ => false }

/-- Geometry for the C6 counterexample: one slide whose centered
position is the fractional `1.5px` (slide center `0` at `left: 0`,
container center `1.5` - e.g. a 3px-wide container). -/
def gC6 : Geom := affineGeom 1 (fun _ => 0) (3 / 2)

/-- State for the C6 counterexample: the track sits at `left: -0.5px`. -/
def sC6 : SliderState :=
  { activeSlide := some 0, startSlide := none, startX := none,
    engaged := false, leftStyle := .px (-(1 / 2)), slideActive := fun _ => true }

/-- Geometry for the C4 counterexample: a single slide, centered at the
container's center at `left: 0`. -/
def gC4 : Geom := affineGeom 1 (fun _ => 0) 0

/-- State for the C4 counterexample: engaged gesture on the (boundary)
slide 0 with the track dragged to the fractional `left: 0.5px`. -/
def sC4 : SliderState :=
  { activeSlide := some 0, startSlide := some 0, startX := some 100,
    engaged := true, leftStyle := .px (1 / 2), slideActive := fun _ => true }

/-- Slider for the C4 witness: three 100px slides, gesture ending on the
middle slide where it started. -/
def sW4 : SliderState :=
  { activeSlide := some 1, startSlide := some 1, startX := some 40,
    engaged := true, leftStyle := .unset, slideActive := fun i => decide (i = 1) }

/-- Geometry for the C1 counterexample: three slides with centers at 0,
5 and 3 while the container's center is at 0 - a layout in which the
slides do not appear in left-to-right order (e.g. wrapped rows or
absolute positioning). -/
def gC1 : Geom :=
  affineGeom 3 (fun i => if i = 0 then 0 else if i = 1 then 5 else 3) 0

/-- State for the C1 counterexample: fresh slider, track not yet moved. -/
def sC1 : SliderState :=
  { activeSlide := none, startSlide := none, startX := none,
    engaged := false, leftStyle := .unset, slideActive := fun _ => false }

/-- Geometry for the C1 witness: three 100px slides left to right in a
300px container; slide 1 is nearest the center. -/
def gW1 : Geom := affineGeom 3 (fun i => (i : ℚ) * 100 + 50) 150

/-! Helper lemmas. -/

theorem truncQ_intCast (z : ℤ) : truncQ (z : ℚ) = z := by
  unfold truncQ
  simp [Rat.num_intCast, Rat.den_intCast, Int.sign_mul_abs]

theorem clampIdx_nonneg (n : ℕ) (k : ℤ) (hn : 1 ≤ n) : 0 ≤ clampIdx n k := by
  simp only [clampIdx]
  split_ifs <;> omega

theorem clampIdx_le (n : ℕ) (k : ℤ) : clampIdx n k ≤ (n : ℤ) - 1 := by
  simp only [clampIdx]
  split_ifs <;> omega

theorem clampIdx_of_mem (n : ℕ) (k : ℤ) (h0 : 0 ≤ k) (h1 : k ≤ (n : ℤ) - 1) :
    clampIdx n k = k := by
  simp only [clampIdx]
  split_ifs <;> omega

theorem clampIdx_idem (n : ℕ) (k : ℤ) (hn : 1 ≤ n) :
    clampIdx n (clampIdx n k) = clampIdx n k :=
  clampIdx_of_mem n _ (clampIdx_nonneg n k hn) (clampIdx_le n k)

theorem clampIdx_neg (n : ℕ) (k : ℤ) (hn : 1 ≤ n) (hk : k < 0) :
    clampIdx n k = 0 := by
  simp only [clampIdx]
  split_ifs <;> omega

theorem clampIdx_big (n : ℕ) (k : ℤ) (hk : (n : ℤ) - 1 < k) :
    clampIdx n k = (n : ℤ) - 1 := by
  simp only [clampIdx]
  split_ifs <;> omega

theorem construct_ok_elim (sliderID : String) (hE hI : Bool) (g : Geom)
    (init : InitDom) (s0 : SliderState)
    (hc : construct sliderID hE hI g init = .ok s0) :
    1 ≤ g.n ∧
    s0 = setActiveSlide g ((getActiveSlide g
        { activeSlide := none, startSlide := none, startX := none,
          engaged := init.engaged, leftStyle := init.leftStyle,
          slideActive := init.slideActive } : ℕ) : ℤ)
        { activeSlide := none, startSlide := none, startX := none,
          engaged := init.engaged, leftStyle := init.leftStyle,
          slideActive := init.slideActive } := by
  simp only [construct] at hc
  split at hc
  · exact ConstructOutcome.noConfusion hc
  split at hc
  · exact ConstructOutcome.noConfusion hc
  split at hc
  · exact ConstructOutcome.noConfusion hc
  · injection hc with hc
    refine ⟨by omega, hc.symm⟩

theorem setActiveSlide_leftStyle (g : Geom) (k : ℤ) (s : SliderState) :
    (setActiveSlide g k s).leftStyle = s.leftStyle := rfl

theorem setActiveSlide_activeSlide (g : Geom) (k : ℤ) (s : SliderState) :
    (setActiveSlide g k s).activeSlide = some (clampIdx g.n k) := rfl

theorem getInnerLeft_setActiveSlide (g : Geom) (k : ℤ) (s : SliderState) :
    getInnerLeft (setActiveSlide g k s) = getInnerLeft s := rfl

theorem actualLeft_setActiveSlide (g : Geom) (k : ℤ) (s : SliderState) :
    actualLeft (setActiveSlide g k s) = actualLeft s := rfl

/-! Claim C3: clamping of the index argument. -/

/-- Claim C3: for every valid slider (at least one slide), both
`setActiveSlide` and `moveToSlide` clamp their argument into
`[0, slideCount - 1]`: the call with `-5` produces exactly the state the
call with `0` produces, and the call with `slideCount + 5` produces
exactly the state the call with `slideCount - 1` produces. -/
theorem clamping_of_navigation (g : Geom) (s : SliderState) (hn : 1 ≤ g.n) :
    setActiveSlide g (-5) s = setActiveSlide g 0 s ∧
    setActiveSlide g ((g.n : ℤ) + 5) s = setActiveSlide g ((g.n : ℤ) - 1) s ∧
    moveToSlide g (-5) s = moveToSlide g 0 s ∧
    moveToSlide g ((g.n : ℤ) + 5) s = moveToSlide g ((g.n : ℤ) - 1) s := by
  have hneg : clampIdx g.n (-5) = clampIdx g.n 0 := by
    rw [clampIdx_neg g.n (-5) hn (by norm_num),
      clampIdx_of_mem g.n 0 le_rfl (by omega)]
  have hbig : clampIdx g.n ((g.n : ℤ) + 5) = clampIdx g.n ((g.n : ℤ) - 1) := by
    rw [clampIdx_big g.n _ (by omega), clampIdx_of_mem g.n _ (by omega) le_rfl]
  refine ⟨?_, ?_, ?_, ?_⟩ <;> simp only [setActiveSlide, moveToSlide, hneg, hbig]

/-- Witness for C3 at a concrete three-slide slider. -/
theorem clamping_of_navigation_witness :
    1 ≤ (affineGeom 3 (fun i => (i : ℚ) * 100) 150).n ∧
    setActiveSlide (affineGeom 3 (fun i => (i : ℚ) * 100) 150) (-5)
        { activeSlide := none, startSlide := none, startX := none,
          engaged := false, leftStyle := .unset, slideActive := fun _ => false } =
      setActiveSlide (affineGeom 3 (fun i => (i : ℚ) * 100) 150) 0
        { activeSlide := none, startSlide := none, startX := none,
          engaged := false, leftStyle := .unset, slideActive := fun _ => false } := by
  refine ⟨by decide, ?_⟩
  exact (clamping_of_navigation (affineGeom 3 (fun i => (i : ℚ) * 100) 150)
    { activeSlide := none, startSlide := none, startX := none,
      engaged := false, leftStyle := .unset, slideActive := fun _ => false }
    (by decide)).1

/-! Claim C5: exactly one slide carries the `active` class. -/

/-- Claim C5: after any `setActiveSlide` call on a valid slider, the
slide at the clamped index carries the `active` class and every other
slide does not, regardless of the classes carried before. -/
theorem setActiveSlide_unique_active (g : Geom) (k : ℤ) (s : SliderState)
    (hn : 1 ≤ g.n) :
    (clampIdx g.n k).toNat < g.n ∧
    (setActiveSlide g k s).slideActive (clampIdx g.n k).toNat = true ∧
    ∀ i, i < g.n → i ≠ (clampIdx g.n k).toNat →
      (setActiveSlide g k s).slideActive i = false := by
  have h0 := clampIdx_nonneg g.n k hn
  have h1 := clampIdx_le g.n k
  refine ⟨by omega, ?_, ?_⟩
  · simp only [setActiveSlide]
    rw [if_pos (by omega)]
    simp [Int.toNat_of_nonneg h0]
  · intro i hi hne
    simp only [setActiveSlide]
    rw [if_pos hi]
    simp only [decide_eq_false_iff_not]
    omega

/-- Witness for C5: a two-slide slider where both slides start with the
`active` class and `setActiveSlide 7` is called. -/
theorem setActiveSlide_unique_active_witness :
    1 ≤ (affineGeom 2 (fun i => (i : ℚ) * 100) 100).n ∧
    ((clampIdx 2 7).toNat < 2 ∧
      (setActiveSlide (affineGeom 2 (fun i => (i : ℚ) * 100) 100) 7
        { activeSlide := some 0, startSlide := none, startX := none,
          engaged := false, leftStyle := .unset,
          slideActive := fun _ => true }).slideActive (clampIdx 2 7).toNat = true ∧
      ∀ i, i < 2 → i ≠ (clampIdx 2 7).toNat →
        (setActiveSlide (affineGeom 2 (fun i => (i : ℚ) * 100) 100) 7
          { activeSlide := some 0, startSlide := none, startX := none,
            engaged := false, leftStyle := .unset,
            slideActive := fun _ => true }).slideActive i = false) :=
  ⟨by decide,
    setActiveSlide_unique_active (affineGeom 2 (fun i => (i : ℚ) * 100) 100) 7
      { activeSlide := some 0, startSlide := none, startX := none,
        engaged := false, leftStyle := .unset, slideActive := fun _ => true }
      (by decide)⟩

/-! Claim C9: totality of `getInnerLeft`. -/

/-- Claim C9: `getInnerLeft` is total: it returns the inline `left`
style parsed as an integer (truncation, as `parseInt` does on a decimal
pixel string) and returns `0` when the style is unset or unparseable; in
particular a freshly constructed slider whose track has no parseable
inline `left` reports offset `0` before any mutation of the track
position. -/
theorem getInnerLeft_total (s : SliderState) :
    (s.leftStyle = .unset → getInnerLeft s = 0) ∧
    (s.leftStyle = .other → getInnerLeft s = 0) ∧
    (∀ q, s.leftStyle = .px q → getInnerLeft s = truncQ q) ∧
    ∀ sliderID g init s0, init.leftStyle = CssLeft.unset →
      construct sliderID true true g init = .ok s0 → getInnerLeft s0 = 0 := by
  refine ⟨?_, ?_, ?_, ?_⟩
  · intro h; simp [getInnerLeft, h]
  · intro h; simp [getInnerLeft, h]
  · intro q h; simp [getInnerLeft, h]
  · intro sliderID g init s0 hinit hc
    obtain ⟨-, hs0⟩ := construct_ok_elim sliderID true true g init s0 hc
    subst hs0
    simp [getInnerLeft, setActiveSlide, hinit]

/-! Claim C2: graceful failure of construction. -/

/-- Claim C2: when any lookup fails (missing container, missing track,
or zero slides), the constructor emits the warning naming the container
id, installs no event bindings, and returns an inert instance: every
subsequently dispatched synthetic pointer event leaves it unchanged. -/
theorem construct_invalid_inert (sliderID : String) (hE hI : Bool) (g : Geom)
    (init : InitDom) (h : hE = false ∨ hI = false ∨ g.n = 0) :
    construct sliderID hE hI g init =
      .invalid ("The DraggableSlider with ID " ++ sliderID ++
        " will not work as it has some missing elements.") ∧
    bindings (construct sliderID hE hI g init) = false ∧
    ∀ o, dispatch g o (construct sliderID hE hI g init) =
      construct sliderID hE hI g init := by
  have hinv : construct sliderID hE hI g init =
      .invalid (InvalidSliderStructure sliderID) := by
    simp only [construct]
    split_ifs with h1 h2 h3 <;> first | rfl | (rcases h with h | h | h <;> simp_all)
  refine ⟨hinv, ?_, ?_⟩
  · rw [hinv]; rfl
  · intro o; rw [hinv]; rfl

/-- Witness for C2: construction with a missing container element. -/
theorem construct_invalid_inert_witness :
    (false = false ∨ true = false ∨ (affineGeom 3 (fun i => (i : ℚ)) 0).n = 0) ∧
    construct "hero" false true (affineGeom 3 (fun i => (i : ℚ)) 0)
        { engaged := false, leftStyle := .unset, slideActive := fun _ => false } =
      .invalid ("The DraggableSlider with ID " ++ "hero" ++
        " will not work as it has some missing elements.") ∧
    bindings (construct "hero" false true (affineGeom 3 (fun i => (i : ℚ)) 0)
        { engaged := false, leftStyle := .unset, slideActive := fun _ => false }) =
      false ∧
    dispatch (affineGeom 3 (fun i => (i : ℚ)) 0) (.start 5)
        (construct "hero" false true (affineGeom 3 (fun i => (i : ℚ)) 0)
          { engaged := false, leftStyle := .unset, slideActive := fun _ => false }) =
      construct "hero" false true (affineGeom 3 (fun i => (i : ℚ)) 0)
        { engaged := false, leftStyle := .unset, slideActive := fun _ => false } := by
  have h := construct_invalid_inert "hero" false true
    (affineGeom 3 (fun i => (i : ℚ)) 0)
    { engaged := false, leftStyle := .unset, slideActive := fun _ => false }
    (Or.inl rfl)
  exact ⟨Or.inl rfl, h.1, h.2.1, h.2.2 (.start 5)⟩

/-! Claim C8: incremental drag deltas. -/

theorem setActiveSlide_startX (g : Geom) (k : ℤ) (s : SliderState) :
    (setActiveSlide g k s).startX = s.startX := rfl

theorem setActiveSlide_engaged (g : Geom) (k : ℤ) (s : SliderState) :
    (setActiveSlide g k s).engaged = s.engaged := rfl

theorem getInnerLeft_of_px (s : SliderState) (q : ℚ) (h : s.leftStyle = .px q) :
    getInnerLeft s = truncQ q := by
  simp [getInnerLeft, h]

/-- Fields of `onMove` on an engaged slider: the new `left` is the
parsed old `left` plus the pointer delta, and the recorded pointer X
becomes the current position. -/
theorem onMove_fields (g : Geom) (x : ℚ) (s : SliderState)
    (h : s.engaged = true) :
    (onMove g x s).leftStyle = .px ((getInnerLeft s : ℚ) + (x - s.startX.getD 0)) ∧
    (onMove g x s).startX = some x ∧
    (onMove g x s).engaged = true := by
  simp [onMove, h, setActiveSlide]

theorem truncQ_int_shift (a b : ℤ) : truncQ ((a : ℚ) + (b : ℚ)) = a + b := by
  rw [show ((a : ℚ) + (b : ℚ)) = ((a + b : ℤ) : ℚ) by push_cast; ring,
    truncQ_intCast]

/-- Claim C8: during an engaged gesture each `onMove` adds the
incremental pointer delta to the track offset and re-records the pointer
X; in particular a gesture starting at X=100 followed by moves to X=150
and X=130 shifts the track offset by +50 then -20, a net +30 relative to
the offset at gesture start. -/
theorem onMove_incremental (g : Geom) (x : ℚ) (s : SliderState)
    (h : s.engaged = true) :
    ((onMove g x s).leftStyle =
        .px ((getInnerLeft s : ℚ) + (x - s.startX.getD 0)) ∧
      (onMove g x s).startX = some x) ∧
    ∀ s0 : SliderState,
      getInnerLeft (onStart 100 s0) = getInnerLeft s0 ∧
      getInnerLeft (onMove g 150 (onStart 100 s0)) = getInnerLeft s0 + 50 ∧
      getInnerLeft (onMove g 130 (onMove g 150 (onStart 100 s0))) =
        getInnerLeft (onMove g 150 (onStart 100 s0)) - 20 ∧
      getInnerLeft (onMove g 130 (onMove g 150 (onStart 100 s0))) =
        getInnerLeft s0 + 30 := by
  obtain ⟨hl, hx, -⟩ := onMove_fields g x s h
  refine ⟨⟨hl, hx⟩, ?_⟩
  intro s0
  have h1 : (onStart 100 s0).engaged = true := rfl
  have e0 : getInnerLeft (onStart 100 s0) = getInnerLeft s0 := rfl
  obtain ⟨hl1, hx1, he1⟩ := onMove_fields g 150 (onStart 100 s0) h1
  have e1 : getInnerLeft (onMove g 150 (onStart 100 s0)) =
      getInnerLeft s0 + 50 := by
    rw [getInnerLeft_of_px _ _ hl1]
    have heq : ((getInnerLeft (onStart 100 s0) : ℚ) +
          (150 - (onStart 100 s0).startX.getD 0)) =
        ((getInnerLeft s0 : ℚ) + ((50 : ℤ) : ℚ)) := by
      rw [e0]
      simp [onStart]
      norm_num
    rw [heq, truncQ_int_shift]
  obtain ⟨hl2, hx2, he2⟩ := onMove_fields g 130 (onMove g 150 (onStart 100 s0)) he1
  have e2 : getInnerLeft (onMove g 130 (onMove g 150 (onStart 100 s0))) =
      getInnerLeft (onMove g 150 (onStart 100 s0)) - 20 := by
    rw [getInnerLeft_of_px _ _ hl2]
    have heq : ((getInnerLeft (onMove g 150 (onStart 100 s0)) : ℚ) +
          (130 - (onMove g 150 (onStart 100 s0)).startX.getD 0)) =
        ((getInnerLeft (onMove g 150 (onStart 100 s0)) : ℚ) + ((-20 : ℤ) : ℚ)) := by
      rw [hx1]
      norm_num
    rw [heq, truncQ_int_shift]
    omega
  refine ⟨e0, e1, e2, ?_⟩
  rw [e2, e1]
  omega

/-- Witness for C8 on a concrete engaged slider. -/
theorem onMove_incremental_witness :
    sC8.engaged = true ∧
    (onMove gC8 150 sC8).leftStyle =
      .px ((getInnerLeft sC8 : ℚ) + (150 - sC8.startX.getD 0)) ∧
    getInnerLeft (onMove gC8 130 (onMove gC8 150 (onStart 100 sC8))) =
      getInnerLeft sC8 + 30 := by
  have h := onMove_incremental gC8 150 sC8 rfl
  exact ⟨rfl, h.1.1, (h.2 sC8).2.2.2⟩

/-! Claim C10: the active index is never null after construction. -/

theorem gasAux_succ (off : ℕ → ℚ) (n : ℕ) :
    gasAux off (n + 1) = stepGAS off (gasAux off n) n := by
  simp [gasAux, List.range_succ]

theorem gasAux_lt (off : ℕ → ℚ) : ∀ n, 1 ≤ n → gasAux off n < n := by
  intro n
  induction n with
  | zero => omega
  | succ m ih =>
    intro _
    rw [gasAux_succ]
    unfold stepGAS
    split
    · omega
    · rcases Nat.eq_zero_or_pos m with hm | hm
      · subst hm
        simp [gasAux]
      · exact Nat.lt_succ_of_lt (ih hm)

theorem activeOk_setActiveSlide (g : Geom) (k : ℤ) (s : SliderState)
    (hn : 1 ≤ g.n) : ActiveOk g.n (setActiveSlide g k s) :=
  ⟨clampIdx g.n k, rfl, clampIdx_nonneg g.n k hn, clampIdx_le g.n k⟩

theorem activeOk_moveToSlide (g : Geom) (k : ℤ) (s : SliderState)
    (hn : 1 ≤ g.n) : ActiveOk g.n (moveToSlide g k s) :=
  ⟨clampIdx g.n (clampIdx g.n k), rfl,
    clampIdx_nonneg g.n _ hn, clampIdx_le g.n _⟩

theorem activeOk_moveToActiveSlide (g : Geom) (s : SliderState)
    (hn : 1 ≤ g.n) : ActiveOk g.n (moveToActiveSlide g s) :=
  activeOk_moveToSlide g _ _ hn

theorem activeOk_applyOp (g : Geom) (o : Op) (s : SliderState)
    (hn : 1 ≤ g.n) (h : ActiveOk g.n s) : ActiveOk g.n (applyOp g s o) := by
  obtain ⟨j, hj, hj0, hj1⟩ := h
  cases o with
  | start x => exact ⟨j, hj, hj0, hj1⟩
  | move x =>
    simp only [applyOp, onMove]
    split
    · exact ⟨j, hj, hj0, hj1⟩
    · exact activeOk_setActiveSlide g _ _ hn
  | gestureEnd =>
    simp only [applyOp, onEnd]
    split
    · exact activeOk_moveToActiveSlide g _ hn
    · exact ⟨j, hj, hj0, hj1⟩
  | resize => exact activeOk_moveToActiveSlide g _ hn
  | moveTo k => exact activeOk_moveToSlide g k _ hn
  | setActive k => exact activeOk_setActiveSlide g k _ hn

theorem activeOk_run (g : Geom) (hn : 1 ≤ g.n) :
    ∀ (l : List Op) (s : SliderState), ActiveOk g.n s →
      ActiveOk g.n (run g s l) := by
  intro l
  induction l with
  | nil => exact fun s h => h
  | cons o t ih =>
    intro s h
    exact ih (applyOp g s o) (activeOk_applyOp g o s hn h)

/-- Claim C10: after a successful construction the active index is an
integer in `[0, slideCount-1]` and stays so under every sequence of
operations; consequently the null-defaulting branch of
`moveToActiveSlide` is unreachable: on any state satisfying the
invariant, `activeSlide` is not null and `moveToActiveSlide` is exactly
`moveToSlide` at the stored index. -/
theorem activeSlide_never_null (sliderID : String) (hE hI : Bool)
    (g : Geom) (init : InitDom) (s0 : SliderState)
    (hc : construct sliderID hE hI g init = .ok s0) (l : List Op) :
    ActiveOk g.n (run g s0 l) ∧
    ∀ t : SliderState, ActiveOk g.n t →
      t.activeSlide ≠ none ∧
      ∃ j : ℤ, t.activeSlide = some j ∧
        moveToActiveSlide g t = moveToSlide g j t := by
  obtain ⟨hn, hs0⟩ := construct_ok_elim sliderID hE hI g init s0 hc
  constructor
  · refine activeOk_run g hn l s0 ?_
    rw [hs0]
    exact activeOk_setActiveSlide g _ _ hn
  · intro t ⟨j, hj, hj0, hj1⟩
    refine ⟨by simp [hj], j, hj, ?_⟩
    cases t
    simp only at hj
    subst hj
    simp [moveToActiveSlide]

/-- Witness for C10: a constructed two-slide slider driven through a
full gesture keeps a non-null in-range active index. -/
theorem activeSlide_never_null_witness :
    construct "w" true true gC10 initC10 = .ok s0C10 ∧
    ActiveOk gC10.n
      (run gC10 s0C10 [Op.start 5, Op.move 40, Op.gestureEnd, Op.resize]) := by
  have h := activeSlide_never_null "w" true true gC10 initC10 s0C10 rfl
    [Op.start 5, Op.move 40, Op.gestureEnd, Op.resize]
  exact ⟨rfl, h.1⟩

/-! Claims C6 and C7: snapping arithmetic of `moveToSlide`. -/

theorem actualLeft_of_px (s : SliderState) (q : ℚ) (h : s.leftStyle = .px q) :
    actualLeft s = q := by
  simp [actualLeft, h]

/-- The `left` style `moveToSlide` writes, over a stable (affine,
unit-slope) geometry. -/
theorem moveToSlide_leftStyle_affine (n : ℕ) (base : ℕ → ℚ) (c : ℚ)
    (k : ℤ) (s : SliderState) (hn : 1 ≤ n) :
    (moveToSlide (affineGeom n base c) k s).leftStyle =
      .px ((getInnerLeft s : ℚ) -
        (base (clampIdx n k).toNat + actualLeft s - c)) := by
  simp only [moveToSlide, getInnerLeft_setActiveSlide, setActiveSlide_activeSlide,
    Option.getD_some, getSlideOffset, actualLeft_setActiveSlide]
  rw [show (affineGeom n base c).n = n from rfl, clampIdx_idem n k hn]
  rfl

/-- After `moveToSlide k`, the offset of the slide at the clamped index
equals the parse error of the pre-call `left` (parsed minus actual). -/
theorem moveToSlide_offset_eq (n : ℕ) (base : ℕ → ℚ) (c : ℚ) (k : ℤ)
    (s : SliderState) (hn : 1 ≤ n) :
    getSlideOffset (affineGeom n base c)
        (moveToSlide (affineGeom n base c) k s) (clampIdx n k).toNat =
      (getInnerLeft s : ℚ) - actualLeft s := by
  rw [getSlideOffset,
    actualLeft_of_px _ _ (moveToSlide_leftStyle_affine n base c k s hn)]
  show base (clampIdx n k).toNat +
      ((getInnerLeft s : ℚ) - (base (clampIdx n k).toNat + actualLeft s - c)) - c =
    (getInnerLeft s : ℚ) - actualLeft s
  ring

/-- Claim C7 (amended): over a stable geometry and an in-range index
`k`, `getSlideOffset k` is `0` immediately after `moveToSlide k`,
provided the track's inline `left` at call time parses back exactly
(it is unset, unparseable, or a whole number of pixels); without that
proviso the residual offset is the `parseInt` truncation error. -/
theorem moveToSlide_centers (n : ℕ) (base : ℕ → ℚ) (c : ℚ) (k : ℤ)
    (s : SliderState) (hn : 1 ≤ n) (hk0 : 0 ≤ k) (hk1 : k ≤ (n : ℤ) - 1)
    (hpe : ParseExact s) :
    getSlideOffset (affineGeom n base c)
      (moveToSlide (affineGeom n base c) k s) k.toNat = 0 := by
  have h := moveToSlide_offset_eq n base c k s hn
  rw [clampIdx_of_mem n k hk0 hk1] at h
  rw [h, hpe, sub_self]

/-- Counterexample to C7 as stated: with the track at `left: 0.5px`,
`moveToSlide 0` leaves slide 0 half a pixel off center, because
`parseInt` drops the fractional part of the style value. -/
theorem moveToSlide_centers_cex :
    getSlideOffset gC7 (moveToSlide gC7 0 sC7) 0 ≠ 0 := by
  have h := moveToSlide_offset_eq 1 (fun _ => 0) 0 0 sC7 le_rfl
  rw [show (clampIdx 1 0).toNat = 0 from by decide] at h
  show getSlideOffset (affineGeom 1 (fun _ => 0) 0)
    (moveToSlide (affineGeom 1 (fun _ => 0) 0) 0 sC7) 0 ≠ 0
  rw [h, getInnerLeft_of_px sC7 (1 / 2) rfl, actualLeft_of_px sC7 (1 / 2) rfl]
  norm_num [truncQ, Int.sign]

theorem sW67_parseExact : ParseExact sW67 := by
  rw [ParseExact, getInnerLeft_of_px sW67 7 rfl, actualLeft_of_px sW67 7 rfl]
  norm_num [truncQ, Int.sign]

/-- Witness for the amended C7 at a concrete whole-pixel slider. -/
theorem moveToSlide_centers_witness :
    1 ≤ (2 : ℕ) ∧ (0 : ℤ) ≤ 1 ∧ (1 : ℤ) ≤ (2 : ℤ) - 1 ∧ ParseExact sW67 ∧
    getSlideOffset (affineGeom 2 (fun i => (i : ℚ) * 100 + 50) 100)
      (moveToSlide (affineGeom 2 (fun i => (i : ℚ) * 100 + 50) 100) 1 sW67)
      (1 : ℤ).toNat = 0 :=
  ⟨by decide, by decide, by decide, sW67_parseExact,
    moveToSlide_centers 2 (fun i => (i : ℚ) * 100 + 50) 100 1 sW67
      (by decide) (by decide) (by decide) sW67_parseExact⟩

/-- Claim C6 (amended): over a stable geometry, `moveToSlide k` is
idempotent on the track offset provided the pre-call `left` parses back
exactly and the centered position `c - base k` is a whole number of
pixels; with fractional values the second call shifts the track by the
`parseInt` truncation error. -/
theorem moveToSlide_idempotent (n : ℕ) (base : ℕ → ℚ) (c : ℚ) (k : ℤ)
    (s : SliderState) (hn : 1 ≤ n) (hpe : ParseExact s)
    (hz : ∃ z : ℤ, c - base (clampIdx n k).toNat = (z : ℚ)) :
    (moveToSlide (affineGeom n base c) k
        (moveToSlide (affineGeom n base c) k s)).leftStyle =
      (moveToSlide (affineGeom n base c) k s).leftStyle := by
  obtain ⟨z, hzv⟩ := hz
  have h1 := moveToSlide_leftStyle_affine n base c k s hn
  have hL1 : (getInnerLeft s : ℚ) -
      (base (clampIdx n k).toNat + actualLeft s - c) = (z : ℚ) := by
    rw [ParseExact] at hpe
    rw [hpe]
    linarith [hzv]
  rw [hL1] at h1
  have h2 := moveToSlide_leftStyle_affine n base c k
    (moveToSlide (affineGeom n base c) k s) hn
  rw [h2, getInnerLeft_of_px _ _ h1, truncQ_intCast, actualLeft_of_px _ _ h1, h1]
  congr 1
  linarith [hzv]

/-- Counterexample to C6 as stated: the first `moveToSlide 0` puts the
track at `left: 2px`, the second at `left: 1.5px` - both the inline
style and its parsed value change on the repeated call. -/
theorem moveToSlide_idempotent_cex :
    (moveToSlide gC6 0 (moveToSlide gC6 0 sC6)).leftStyle ≠
      (moveToSlide gC6 0 sC6).leftStyle ∧
    getInnerLeft (moveToSlide gC6 0 (moveToSlide gC6 0 sC6)) ≠
      getInnerLeft (moveToSlide gC6 0 sC6) := by
  have h1 := moveToSlide_leftStyle_affine 1 (fun _ => 0) (3 / 2) 0 sC6 le_rfl
  rw [getInnerLeft_of_px sC6 (-(1 / 2)) rfl, actualLeft_of_px sC6 (-(1 / 2)) rfl] at h1
  norm_num [truncQ, Int.sign] at h1
  have h1' : (moveToSlide gC6 0 sC6).leftStyle = .px 2 := h1
  have h2 := moveToSlide_leftStyle_affine 1 (fun _ => 0) (3 / 2) 0
    (moveToSlide gC6 0 sC6) le_rfl
  rw [getInnerLeft_of_px _ 2 h1', actualLeft_of_px _ 2 h1'] at h2
  norm_num [truncQ, Int.sign] at h2
  have h2' : (moveToSlide gC6 0 (moveToSlide gC6 0 sC6)).leftStyle = .px (3 / 2) := h2
  constructor
  · rw [h1', h2']
    intro hcon
    rw [CssLeft.px.injEq] at hcon
    norm_num at hcon
  · rw [getInnerLeft_of_px _ _ h1', getInnerLeft_of_px _ _ h2']
    norm_num [truncQ, Int.sign]

/-- Witness for the amended C6 at a concrete whole-pixel slider. -/
theorem moveToSlide_idempotent_witness :
    1 ≤ (2 : ℕ) ∧ ParseExact sW67 ∧
    (∃ z : ℤ, (100 : ℚ) -
      (fun i => (i : ℚ) * 100 + 50) (clampIdx 2 1).toNat = (z : ℚ)) ∧
    (moveToSlide (affineGeom 2 (fun i => (i : ℚ) * 100 + 50) 100) 1
        (moveToSlide (affineGeom 2 (fun i => (i : ℚ) * 100 + 50) 100) 1
          sW67)).leftStyle =
      (moveToSlide (affineGeom 2 (fun i => (i : ℚ) * 100 + 50) 100) 1
        sW67).leftStyle := by
  have hz : ∃ z : ℤ, (100 : ℚ) -
      (fun i => (i : ℚ) * 100 + 50) (clampIdx 2 1).toNat = (z : ℚ) := by
    refine ⟨-50, ?_⟩
    rw [show (clampIdx 2 1).toNat = 1 from by decide]
    norm_num
  exact ⟨by decide, sW67_parseExact, hz,
    moveToSlide_idempotent 2 (fun i => (i : ℚ) * 100 + 50) 100 1 sW67
      (by decide) sW67_parseExact hz⟩

/-! Claim C4: the snap decision at gesture end. -/

/-- Claim C4 (amended): at gesture end the engagement marker is removed;
when the active index equals the index recorded at gesture start and is
neither the first nor the last slide, the state is otherwise untouched
(the track offset stays wherever the drag left it); in every other case
the track snaps via `moveToActiveSlide`, and the active slide ends
exactly centered provided the track's `left` at gesture end parses back
exactly (whole pixels) - otherwise it is left off center by the
`parseInt` truncation error. -/
theorem onEnd_snap_decision (n : ℕ) (base : ℕ → ℚ) (c : ℚ)
    (s : SliderState) (a : ℤ) (hn : 1 ≤ n)
    (ha : s.activeSlide = some a) (h0 : 0 ≤ a) (h1 : a ≤ (n : ℤ) - 1) :
    (s.startSlide = s.activeSlide → a ≠ 0 → a ≠ (n : ℤ) - 1 →
      onEnd (affineGeom n base c) s = { s with engaged := false }) ∧
    ((s.startSlide ≠ s.activeSlide ∨ a = 0 ∨ a = (n : ℤ) - 1) →
      onEnd (affineGeom n base c) s =
        moveToActiveSlide (affineGeom n base c) { s with engaged := false } ∧
      (ParseExact s →
        getSlideOffset (affineGeom n base c)
          (onEnd (affineGeom n base c) s) a.toNat = 0)) := by
  have hs1a : ({ s with engaged := false } : SliderState).activeSlide =
      some a := ha
  constructor
  · intro hEq hA0 hA1
    simp only [onEnd]
    rw [if_neg]
    rintro (hne | hz | hl)
    · exact hne hEq
    · rw [hs1a] at hz
      injection hz with hz
      exact hA0 hz
    · rw [hs1a] at hl
      injection hl with hl
      exact hA1 hl
  · intro hcond
    have hsnap : onEnd (affineGeom n base c) s =
        moveToActiveSlide (affineGeom n base c) { s with engaged := false } := by
      simp only [onEnd]
      rw [if_pos]
      rcases hcond with hne | hz | hl
      · exact Or.inl hne
      · exact Or.inr (Or.inl (by rw [hs1a, hz]))
      · exact Or.inr (Or.inr (by
          rw [hs1a, hl]
          rfl))
    refine ⟨hsnap, ?_⟩
    intro hpe
    have hmta : moveToActiveSlide (affineGeom n base c) { s with engaged := false } =
        moveToSlide (affineGeom n base c) a
          { s with engaged := false, activeSlide := some a } := by
      simp only [moveToActiveSlide]
      rw [hs1a]
      rfl
    rw [hsnap, hmta]
    have h := moveToSlide_offset_eq n base c a
      { s with engaged := false, activeSlide := some a } hn
    rw [clampIdx_of_mem n a h0 h1] at h
    rw [h]
    show (getInnerLeft s : ℚ) - actualLeft s = 0
    rw [ParseExact] at hpe
    rw [hpe, sub_self]

/-- Counterexample to C4 as stated: the gesture ends on a boundary
slide, so the snap branch runs, yet the active slide ends half a pixel
off center rather than exactly centered. -/
theorem onEnd_snap_decision_cex :
    sC4.startSlide = sC4.activeSlide ∧ sC4.activeSlide = some 0 ∧
    getSlideOffset gC4 (onEnd gC4 sC4) 0 ≠ 0 := by
  refine ⟨rfl, rfl, ?_⟩
  show getSlideOffset (affineGeom 1 (fun _ => 0) 0)
    (onEnd (affineGeom 1 (fun _ => 0) 0) sC4) 0 ≠ 0
  have h1 : onEnd (affineGeom 1 (fun _ => 0) 0) sC4 =
      moveToSlide (affineGeom 1 (fun _ => 0) 0) 0
        { sC4 with engaged := false, activeSlide := some 0 } := by
    simp only [onEnd]
    split
    · rfl
    · rename_i hcon
      exact absurd (Or.inr (Or.inl rfl)) hcon
  rw [h1]
  have h := moveToSlide_offset_eq 1 (fun _ => 0) 0 0
    { sC4 with engaged := false, activeSlide := some 0 } le_rfl
  rw [show (clampIdx 1 0).toNat = 0 from by decide] at h
  rw [h, getInnerLeft_of_px _ (1 / 2) rfl, actualLeft_of_px _ (1 / 2) rfl]
  norm_num [truncQ, Int.sign]

/-- Witness for the amended C4: no snap when the gesture ends on the
unchanged middle slide. -/
theorem onEnd_snap_decision_witness :
    1 ≤ (3 : ℕ) ∧ sW4.activeSlide = some 1 ∧ (0 : ℤ) ≤ 1 ∧
    (1 : ℤ) ≤ (3 : ℤ) - 1 ∧ sW4.startSlide = sW4.activeSlide ∧
    (1 : ℤ) ≠ 0 ∧ (1 : ℤ) ≠ (3 : ℤ) - 1 ∧
    onEnd (affineGeom 3 (fun i => (i : ℚ) * 100 + 50) 150) sW4 =
      { sW4 with engaged := false } :=
  ⟨by decide, rfl, by decide, by decide, rfl, by decide, by decide,
    (onEnd_snap_decision 3 (fun i => (i : ℚ) * 100 + 50) 150 sW4 1
      (by decide) rfl (by decide) (by decide)).1 rfl (by decide) (by decide)⟩

/-! Claim C1: which slide `getActiveSlide` selects. -/

/-- Characterization of the `getActiveSlide` loop: it returns `0` when
no index improves on its predecessor, and otherwise the last index that
does. -/
theorem gasAux_spec (off : ℕ → ℚ) : ∀ n : ℕ,
    (gasAux off n = 0 ∧ ∀ i, 1 ≤ i → i < n → ¬|off i| < |off (i - 1)|) ∨
    (1 ≤ gasAux off n ∧ gasAux off n < n ∧
      |off (gasAux off n)| < |off (gasAux off n - 1)| ∧
      ∀ i, gasAux off n < i → i < n → ¬|off i| < |off (i - 1)|) := by
  intro n
  induction n with
  | zero =>
    left
    exact ⟨rfl, fun i h1 h2 => absurd h2 (by omega)⟩
  | succ m ih =>
    rw [gasAux_succ]
    unfold stepGAS
    split
    · rename_i h
      right
      exact ⟨h.1, Nat.lt_succ_self m, h.2, fun i hi1 hi2 => absurd hi1 (by omega)⟩
    · rename_i h
      rcases ih with ⟨h0, hall⟩ | ⟨h1, h2, h3, hall⟩
      · left
        refine ⟨h0, fun i hi1 hi2 => ?_⟩
        rcases Nat.lt_or_ge i m with him | him
        · exact hall i hi1 him
        · have hi : i = m := by omega
          subst hi
          intro habs
          exact h ⟨hi1, habs⟩
      · right
        refine ⟨h1, by omega, h3, fun i hi1 hi2 => ?_⟩
        rcases Nat.lt_or_ge i m with him | him
        · exact hall i hi1 him
        · have hi : i = m := by omega
          subst hi
          intro habs
          exact h ⟨by omega, habs⟩

/-- For `a < b`, the absolute value strictly drops from `a` to `b`
exactly when `a + b` is negative. -/
theorem abs_pair_lt (a b : ℚ) (hab : a < b) : |b| < |a| ↔ a + b < 0 := by
  rcases abs_cases a with ⟨ha1, ha2⟩ | ⟨ha1, ha2⟩ <;>
    rcases abs_cases b with ⟨hb1, hb2⟩ | ⟨hb1, hb2⟩ <;>
    rw [ha1, hb1] <;>
    constructor <;> intro h <;> linarith

/-- Adjacent monotonicity extends to any pair of indices below `n`. -/
theorem off_lt_of_lt (off : ℕ → ℚ) (n : ℕ)
    (mono : ∀ i, i + 1 < n → off i < off (i + 1)) :
    ∀ i j, i < j → j < n → off i < off j := by
  intro i j
  induction j with
  | zero =>
    intro h1 _
    exact absurd h1 (Nat.not_lt_zero i)
  | succ m ih =>
    intro hij hj
    rcases Nat.lt_or_ge i m with him | him
    · exact lt_trans (ih him (by omega)) (mono m hj)
    · have hi : i = m := by omega
      subst hi
      exact mono i hj

/-- Chaining a strict descent from every index up to `m`. -/
theorem chain_desc (f : ℕ → ℚ) :
    ∀ m, (∀ i, 1 ≤ i → i ≤ m → f i < f (i - 1)) → ∀ j, j < m → f m < f j := by
  intro m
  induction m with
  | zero =>
    intro _ j hj
    exact absurd hj (Nat.not_lt_zero j)
  | succ p ih =>
    intro h j hj
    have hp : f (p + 1) < f p := h (p + 1) (by omega) le_rfl
    rcases Nat.lt_or_ge j p with hjp | hjp
    · exact lt_trans hp (ih (fun i hi1 hi2 => h i hi1 (by omega)) j hjp)
    · have hj' : j = p := by omega
      subst hj'
      exact hp

/-- Chaining a weak ascent from `m` up to `j`. -/
theorem chain_asc (f : ℕ → ℚ) (m : ℕ) :
    ∀ j, (∀ i, m < i → i ≤ j → f (i - 1) ≤ f i) → m ≤ j → f m ≤ f j := by
  intro j
  induction j with
  | zero =>
    intro _ hm
    have hm0 : m = 0 := by omega
    subst hm0
    exact le_rfl
  | succ p ih =>
    intro h hm
    rcases Nat.lt_or_ge m (p + 1) with hmp | hmp
    · have hstep : f p ≤ f (p + 1) := h (p + 1) (by omega) le_rfl
      exact le_trans (ih (fun i hi1 hi2 => h i hi1 (by omega)) (by omega)) hstep
    · have hm' : m = p + 1 := by omega
      subst hm'
      exact le_rfl

/-- Claim C1 (amended): on layouts where successive slide offsets are
strictly increasing (slide centers in left-to-right order, the intended
row layout), `getActiveSlide` returns the index of minimum absolute
distance to the container's center, and the lowest such index on exact
ties; on other layouts it instead returns the last index whose distance
strictly drops below its predecessor's (see the counterexample). -/
theorem getActiveSlide_nearest_of_monotone (g : Geom) (s : SliderState)
    (hn : 1 ≤ g.n)
    (mono : ∀ i, i + 1 < g.n →
      getSlideOffset g s i < getSlideOffset g s (i + 1)) :
    getActiveSlide g s < g.n ∧
    (∀ j, j < g.n →
      |getSlideOffset g s (getActiveSlide g s)| ≤ |getSlideOffset g s j|) ∧
    ∀ j, j < getActiveSlide g s →
      |getSlideOffset g s (getActiveSlide g s)| < |getSlideOffset g s j| := by
  have hlt := off_lt_of_lt (fun i => getSlideOffset g s i) g.n mono
  have hgas : getActiveSlide g s =
      gasAux (fun i => getSlideOffset g s i) g.n := rfl
  rcases gasAux_spec (fun i => getSlideOffset g s i) g.n with
    ⟨hm0, hall⟩ | ⟨h1, h2, h3, hall⟩
  · rw [hgas, hm0]
    refine ⟨hn, ?_, ?_⟩
    · intro j hj
      refine chain_asc (fun i => |getSlideOffset g s i|) 0 j ?_ (Nat.zero_le j)
      intro i hi1 hi2
      exact not_lt.mp (hall i hi1 (by omega))
    · intro j hj
      exact absurd hj (Nat.not_lt_zero j)
  · rw [hgas]
    set m := gasAux (fun i => getSlideOffset g s i) g.n with hm
    have hSm : getSlideOffset g s (m - 1) + getSlideOffset g s m < 0 := by
      have hadj : getSlideOffset g s (m - 1) < getSlideOffset g s m :=
        hlt (m - 1) m (by omega) h2
      exact (abs_pair_lt _ _ hadj).mp h3
    have hdec : ∀ i, 1 ≤ i → i ≤ m →
        |getSlideOffset g s i| < |getSlideOffset g s (i - 1)| := by
      intro i hi1 hi2
      have hadj : getSlideOffset g s (i - 1) < getSlideOffset g s i :=
        hlt (i - 1) i (by omega) (by omega)
      refine (abs_pair_lt _ _ hadj).mpr ?_
      rcases Nat.lt_or_ge i m with him | him
      · have e1 : getSlideOffset g s (i - 1) < getSlideOffset g s (m - 1) :=
          hlt (i - 1) (m - 1) (by omega) (by omega)
        have e2 : getSlideOffset g s i < getSlideOffset g s m :=
          hlt i m him h2
        linarith
      · have hi : i = m := by omega
        subst hi
        exact hSm
    refine ⟨h2, ?_, ?_⟩
    · intro j hj
      rcases Nat.lt_or_ge j m with hjm | hjm
      · exact le_of_lt
          (chain_desc (fun i => |getSlideOffset g s i|) m hdec j hjm)
      · refine chain_asc (fun i => |getSlideOffset g s i|) m j ?_ hjm
        intro i hi1 hi2
        exact not_lt.mp (hall i hi1 (by omega))
    · intro j hj
      exact chain_desc (fun i => |getSlideOffset g s i|) m hdec j hj

/-- Counterexample to C1 as stated: the loop compares each slide only
with its predecessor, so with distances 0, 5, 3 it returns index 2
(distance 3) although index 0 sits exactly at the center. -/
theorem getActiveSlide_nearest_cex :
    getActiveSlide gC1 sC1 = 2 ∧
    |getSlideOffset gC1 sC1 0| < |getSlideOffset gC1 sC1 2| := by
  have hoff : ∀ i, getSlideOffset gC1 sC1 i =
      if i = 0 then 0 else if i = 1 then 5 else 3 := by
    intro i
    show (if i = 0 then (0 : ℚ) else if i = 1 then 5 else 3) + 0 - 0 =
      if i = 0 then 0 else if i = 1 then 5 else 3
    ring
  constructor
  · show gasAux (fun i => getSlideOffset gC1 sC1 i) 3 = 2
    simp only [gasAux, List.range_succ, List.range_zero, List.nil_append,
      List.cons_append, List.foldl_cons, List.foldl_nil, stepGAS, hoff]
    norm_num
  · rw [hoff 0, hoff 2]
    norm_num

/-- Witness for the amended C1 on the in-order three-slide layout. -/
theorem getActiveSlide_nearest_of_monotone_witness :
    1 ≤ gW1.n ∧
    getActiveSlide gW1 sC1 < gW1.n ∧
    |getSlideOffset gW1 sC1 (getActiveSlide gW1 sC1)| ≤
      |getSlideOffset gW1 sC1 0| ∧
    |getSlideOffset gW1 sC1 (getActiveSlide gW1 sC1)| ≤
      |getSlideOffset gW1 sC1 2| := by
  have hmono : ∀ i, i + 1 < gW1.n →
      getSlideOffset gW1 sC1 i < getSlideOffset gW1 sC1 (i + 1) := by
    intro i hi
    have hoff : ∀ j, getSlideOffset gW1 sC1 j = (j : ℚ) * 100 + 50 - 150 := by
      intro j
      show ((j : ℚ) * 100 + 50) + 0 - 150 = (j : ℚ) * 100 + 50 - 150
      ring
    rw [hoff i, hoff (i + 1)]
    push_cast
    linarith
  have h := getActiveSlide_nearest_of_monotone gW1 sC1 (by decide) hmono
  exact ⟨by decide, h.1, h.2.1 0 (by decide), h.2.1 2 (by decide)⟩

/-- Witness for C9 at concrete unset, unparseable and fractional-pixel
track styles, and at a freshly constructed slider. -/
theorem getInnerLeft_total_witness :
    sU9.leftStyle = CssLeft.unset ∧ sO9.leftStyle = CssLeft.other ∧
    sP9.leftStyle = CssLeft.px (3 / 2) ∧
    getInnerLeft sU9 = 0 ∧ getInnerLeft sO9 = 0 ∧
    getInnerLeft sP9 = truncQ (3 / 2) ∧
    initC10.leftStyle = CssLeft.unset ∧
    getInnerLeft s0C10 = 0 :=
  ⟨rfl, rfl, rfl, (getInnerLeft_total sU9).1 rfl, (getInnerLeft_total sO9).2.1 rfl,
    (getInnerLeft_total sP9).2.2.1 (3 / 2) rfl, rfl,
    (getInnerLeft_total sU9).2.2.2 "w" gC10 initC10 s0C10 rfl rfl⟩
